import Mathlib

/-!
Verification of the concurrency-safe DuckDB access layer
(`src/dagster_example/resources.py`, class `DuckDBResource`).

The layer is shallowly embedded as follows.

* Paths.  The source routes the configured `database_path` through
  `pathlib.Path` (`db_path = Path(self.database_path)`), whose string
  rendering collapses spurious slashes and single-dot components.  We model
  that normalization (`normPosixPath`), the lexical parent
  (`parentPath`, modelling `db_path.parent`), and the derived lock path
  (`lockFilePath`, modelling `str(db_path) + ".lock"`).

* Control flow.  `get_connection` is a context manager with nested
  try/finally blocks.  We embed it as a function that, given a fault
  configuration (can the lock file be opened? does `flock` raise? does
  `duckdb.connect` raise?) and the caller's body, returns the outcome, the
  resulting table catalog, and the exact trace of primitive effects the
  Python code performs on that path, with the `finally` clauses appended on
  every exit path just as the interpreter would run them.

* State.  The effect of each primitive on the world (directories, lock
  file, advisory lock, open descriptors, live connection) is given by a
  small step function; replaying a trace folds it over the events.  Claims
  about lock release, descriptor hygiene, and ordering are stated over
  replayed traces.

* Engine.  `execute_query` passes an opaque SQL string to the engine and is
  verified for an arbitrary engine.  `read_csv_to_table` builds one specific
  statement; the external engine's documented create-or-replace semantics
  for that statement is modelled by `duckdbEngine`.
-/

/-- Split a character list into the groups between occurrences of a
separator character. -/
def splitOnChar (sep : Char) : List Char → List (List Char)
  | [] => [[]]
  | c :: cs =>
      if c = sep then [] :: splitOnChar sep cs
      else
        match splitOnChar sep cs with
        | [] => [[c]]
        | g :: gs => (c :: g) :: gs

/-- Components of a POSIX path: split on the separator, dropping empty
segments and single dots, exactly the pseudo-normalization `pathlib`
performs ("spurious slashes and single dots are collapsed"). -/
def pathComps (p : String) : List String :=
  ((splitOnChar '/' p.data).map String.mk).filter (fun c => c ≠ "" && c ≠ ".")

/-- Root of a POSIX path as `pathlib` keeps it: a leading double slash is
preserved, three or more collapse to one, one is kept, none means a
relative path. -/
def pathRoot (p : String) : String :=
  match p.data with
  | '/' :: '/' :: '/' :: _ => "/"
  | '/' :: '/' :: _ => "//"
  | '/' :: _ => "/"
  | _ => ""

/-- Join path components with the separator. -/
def joinSlash : List String → String
  | [] => ""
  | [x] => x
  | x :: xs => x ++ "/" ++ joinSlash xs

/-- Render a root plus components back to a string the way
`str(PurePosixPath(...))` does; a rootless empty path renders as ".". -/
def renderPath (root : String) (comps : List String) : String :=
  match comps with
  | [] => if root = "" then "." else root
  | _ => root ++ joinSlash comps

/-- String rendering of `pathlib.Path(p)` on POSIX: `str(Path(p))`. -/
def normPosixPath (p : String) : String :=
  renderPath (pathRoot p) (pathComps p)

/-- Lexical parent directory, modelling `Path(p).parent`. -/
def parentPath (p : String) : String :=
  renderPath (pathRoot p) (pathComps p).dropLast

/-- The chain of directories `Path(d).mkdir(parents=True)` creates when
none exist: every ancestor of `d` with at least one component, outermost
first, ending with `d` itself. -/
def dirChain (p : String) : List String :=
  (List.range (pathComps p).length).map
    (fun i => renderPath (pathRoot p) ((pathComps p).take (i + 1)))

/-- Lock file path derived in `get_connection`:
`lock_file_path = str(db_path) + ".lock"` where `db_path = Path(self.database_path)`. -/
def lockFilePath (database_path : String) : String :=
  normPosixPath database_path ++ ".lock"

/-- Add a directory to the set of existing directories if absent
(`mkdir(exist_ok=True)` on one level). -/
def insertDir (dirs : List String) (d : String) : List String :=
  if d ∈ dirs then dirs else dirs ++ [d]

/-- Effect of `Path(d).mkdir(parents=True, exist_ok=True)` on the set of
existing directories: create every missing directory on the chain. -/
def mkdirParentsFS (dirs : List String) (d : String) : List String :=
  (dirChain d).foldl insertDir dirs

/-- Error taxonomy of the access layer, following the specification's
names for the exceptions the Python code lets escape. -/
inductive Err where
  /-- The lock file cannot be created or opened (`open` raises). -/
  | resourceUnavailable
  /-- The engine cannot open the database file (`duckdb.connect` raises). -/
  | connectionError
  /-- Malformed SQL or invalid identifier. -/
  | queryError
  /-- Missing or unparsable source file for a load. -/
  | loadError
  /-- An OS-level failure outside the taxonomy (e.g. `flock` raising). -/
  | osError
  /-- An error raised by the caller's own body inside the scope. -/
  | callerError
deriving Repr, DecidableEq

/-- A table inside the database: a schema (column names/types as inferred)
and the ordered rows. -/
structure Table where
  schema : List String
  rows : List (List String)
deriving Repr, DecidableEq

/-- The table catalog of the database file: name-to-table bindings. -/
abbrev Tables := List (String × Table)

/-- A result row as fetched by `fetchall()`. -/
abbrev Row := List String

/-- Look up a table by name. -/
def lookupTable (ts : Tables) (name : String) : Option Table :=
  match ts with
  | [] => none
  | (n, t) :: rest => if n = name then some t else lookupTable rest name

/-- Replace the binding of `name` wholesale, or create it if absent:
the catalog effect of `CREATE OR REPLACE TABLE`. -/
def replaceTable (ts : Tables) (name : String) (t : Table) : Tables :=
  match ts with
  | [] => [(name, t)]
  | (n, t₀) :: rest =>
      if n = name then (n, t) :: rest else (n, t₀) :: replaceTable rest name t

/-- Primitive effects `get_connection` and its callers perform, in the
order the Python code performs them. -/
inductive Event where
  /-- `db_path.parent.mkdir(parents=True, exist_ok=True)` with this parent. -/
  | mkdirParents (dir : String)
  /-- `open(lock_file_path, 'w')` raised (permissions and the like). -/
  | openLockFail (path : String)
  /-- `open(lock_file_path, 'w')` succeeded: the file is created if absent,
  truncated to empty, and a descriptor is now open. -/
  | openLockOk (path : String)
  /-- `fcntl.flock(fd, LOCK_EX)` returned: the exclusive lock is held. -/
  | flockExOk
  /-- `fcntl.flock(fd, LOCK_EX)` raised; the lock is not held. -/
  | flockExFail
  /-- `duckdb.connect(str(db_path), read_only=False)` returned a handle. -/
  | connectOk
  /-- `duckdb.connect` raised; no handle exists. -/
  | connectFail
  /-- `conn.execute(q)` with the exact string handed to the engine. -/
  | connExec (q : String)
  /-- `conn.commit()`. -/
  | connCommit
  /-- `conn.close()`. -/
  | connClose
  /-- `fcntl.flock(fd, LOCK_UN)`: the lock is released (a no-op if not held). -/
  | flockUn
  /-- `lock_file.close()`: the lock-file descriptor is closed. -/
  | lockClose
deriving Repr, DecidableEq

/-- Observable world state the access layer touches: the directory tree,
the lock file and its advisory lock, open lock-file descriptors, and
whether a database connection is live. -/
structure LockState where
  dirs : List String
  lockFileExists : Bool
  lockFileContent : String
  lockHeld : Bool
  openLockFds : Nat
  connOpen : Bool
deriving Repr, DecidableEq

/-- Effect of one primitive event on the world. -/
def step (s : LockState) : Event → LockState
  | .mkdirParents d => { s with dirs := mkdirParentsFS s.dirs d }
  | .openLockFail _ => s
  | .openLockOk _ =>
      { s with lockFileExists := true, lockFileContent := "",
               openLockFds := s.openLockFds + 1 }
  | .flockExOk => { s with lockHeld := true }
  | .flockExFail => s
  | .connectOk => { s with connOpen := true }
  | .connectFail => s
  | .connExec _ => s
  | .connCommit => s
  | .connClose => { s with connOpen := false }
  | .flockUn => { s with lockHeld := false }
  | .lockClose => { s with openLockFds := s.openLockFds - 1 }

/-- Replay a trace of events from a starting world. -/
def replay (s : LockState) (tr : List Event) : LockState :=
  tr.foldl step s

/-- Check, after every event of a trace, that the connection is never open
while the advisory lock is not held. -/
def safeTrace (s : LockState) : List Event → Bool
  | [] => true
  | e :: es => (!(step s e).connOpen || (step s e).lockHeld) && safeTrace (step s e) es

/-- Fault configuration for one call: which of the three fallible
primitives of `get_connection` raises. -/
structure Faults where
  /-- `open(lock_file_path, 'w')` raises. -/
  lockOpenFails : Bool
  /-- `fcntl.flock(fd, LOCK_EX)` raises. -/
  flockFails : Bool
  /-- `duckdb.connect` raises. -/
  connectFails : Bool
deriving Repr, DecidableEq

/-- The fault-free configuration. -/
def noFaults : Faults := ⟨false, false, false⟩

/-- The caller's view of the open connection: the table catalog it can
read and write through the handle. -/
structure Conn where
  tables : Tables
deriving Repr, DecidableEq

/-- Statements a caller's body runs on the connection. -/
inductive BodyEvent where
  /-- `conn.execute(q)`. -/
  | exec (q : String)
  /-- `conn.commit()`. -/
  | commit
deriving Repr, DecidableEq

/-- Embed a body statement into the global event trace. -/
def toEvent : BodyEvent → Event
  | .exec q => .connExec q
  | .commit => .connCommit

/-- A caller's body: given the yielded connection it returns its outcome
(normal value or raised error), the connection state it leaves behind, and
the statements it ran, in order. -/
def Body (α : Type) : Type :=
  Conn → (Except Err α) × Conn × List BodyEvent

/-- Outcome of one scoped call: the result (or propagated error), the
table catalog of the database file afterwards, and the full trace of
primitive effects. -/
structure GCResult (α : Type) where
  result : Except Err α
  tables : Tables
  trace : List Event
deriving Repr

/-- Shallow embedding of `DuckDBResource.get_connection`
(`src/dagster_example/resources.py`, lines 19-47).  The Python code is

1. `db_path = Path(self.database_path)`;
   `db_path.parent.mkdir(parents=True, exist_ok=True)`;
2. `lock_file_path = str(db_path) + ".lock"`;
   `lock_file = open(lock_file_path, 'w')` — if this raises, nothing was
   acquired and the error propagates at once;
3. outer `try`: `fcntl.flock(lock_file.fileno(), fcntl.LOCK_EX)`, then
   `conn = duckdb.connect(str(db_path), read_only=False)`, then inner
   `try: yield conn finally: conn.close()`;
4. outer `finally`: `fcntl.flock(lock_file.fileno(), fcntl.LOCK_UN)` and
   `lock_file.close()` — run on every path that entered the outer `try`.

Each branch below is one exit path, its trace listing exactly the
primitives the interpreter runs on that path, `finally` clauses included. -/
def get_connection (database_path : String) (f : Faults) (body : Body α)
    (tables : Tables) : GCResult α :=
  let parent := parentPath database_path
  let lockPath := lockFilePath database_path
  if f.lockOpenFails then
    { result := .error .resourceUnavailable, tables := tables,
      trace := [.mkdirParents parent, .openLockFail lockPath] }
  else if f.flockFails then
    { result := .error .osError, tables := tables,
      trace := [.mkdirParents parent, .openLockOk lockPath, .flockExFail,
                .flockUn, .lockClose] }
  else if f.connectFails then
    { result := .error .connectionError, tables := tables,
      trace := [.mkdirParents parent, .openLockOk lockPath, .flockExOk,
                .connectFail, .flockUn, .lockClose] }
  else
    let (r, conn, bevs) := body ⟨tables⟩
    { result := r, tables := conn.tables,
      trace := [.mkdirParents parent, .openLockOk lockPath, .flockExOk,
                .connectOk] ++ bevs.map toEvent ++
               [.connClose, .flockUn, .lockClose] }

/-- An engine: takes the raw SQL string exactly as the facade hands it
over, plus the current catalog, and returns fetched rows and the new
catalog, or raises. -/
def Engine : Type :=
  String → Tables → Except Err (List Row × Tables)

/-- Shallow embedding of `DuckDBResource.execute_query`
(`src/dagster_example/resources.py`, lines 49-53):

`with self.get_connection() as conn: return conn.execute(query).fetchall()`

The query string is passed to the engine verbatim; all rows are fetched
eagerly inside the scope and returned after the scope exits. -/
def execute_query (database_path : String) (f : Faults) (engine : Engine)
    (query : String) (tables : Tables) : GCResult (List Row) :=
  get_connection database_path f
    (fun conn =>
      match engine query conn.tables with
      | .ok (rows, t) => (.ok rows, ⟨t⟩, [.exec query])
      | .error e => (.error e, conn, [.exec query]))
    tables

/-- The exact SQL string `read_csv_to_table` builds with its f-string
(`src/dagster_example/resources.py`, lines 58-61), whitespace included. -/
def corSQL (table_name csv_path : String) : String :=
  "\n                CREATE OR REPLACE TABLE " ++ table_name ++
  " AS \n                SELECT * FROM read_csv_auto('" ++ csv_path ++
  "')\n            "

/-- Fixed leading part of the statement `corSQL` builds. -/
def corHead : String := "\n                CREATE OR REPLACE TABLE "

/-- Fixed middle part of the statement `corSQL` builds, between the table
name and the file path. -/
def corMid : String := " AS \n                SELECT * FROM read_csv_auto('"

/-- Fixed trailing part of the statement `corSQL` builds. -/
def corTail : String := "')\n            "

/-- Remove an exact leading run of characters, or fail. -/
def dropExact : List Char → List Char → Option (List Char)
  | [], cs => some cs
  | _ :: _, [] => none
  | p :: ps, c :: cs => if c = p then dropExact ps cs else none

/-- Split a character list at the first occurrence of a non-empty pattern:
returns the part before it and the part after it, or fails when the
pattern does not occur. -/
def breakAt (pat : List Char) : List Char → Option (List Char × List Char)
  | [] => none
  | c :: cs =>
      match dropExact pat (c :: cs) with
      | some rest => some ([], rest)
      | none =>
          match breakAt pat cs with
          | some (a, b) => some (c :: a, b)
          | none => none

/-- Remove an exact trailing run of characters, or fail. -/
def dropSuffixExact (pat cs : List Char) : Option (List Char) :=
  match dropExact pat.reverse cs.reverse with
  | some rest => some rest.reverse
  | none => none

/-- Recover the table name and file path from a statement of the shape
`corSQL` produces; `none` when the string is not of that shape (the engine
would reject it as malformed). -/
def parseCreateOrReplace (q : String) : Option (String × String) :=
  match dropExact corHead.data q.data with
  | none => none
  | some rest =>
      match breakAt corMid.data rest with
      | none => none
      | some (t, rest₂) =>
          match dropSuffixExact corTail.data rest₂ with
          | none => none
          | some p => some (String.mk t, String.mk p)

/-- Modelled external collaborator (the embedded analytical engine, not
code of this repository): its documented behaviour on the one statement
shape `read_csv_to_table` emits.  `CREATE OR REPLACE TABLE t AS SELECT *
FROM read_csv_auto('p')` parses the file at `p` (auto-detected schema,
given here by the read-only file system `csvFS`), then replaces the `t`
binding wholesale; a missing or unparsable file raises before any catalog
change; a statement not of this shape raises a query error. -/
def duckdbEngine (csvFS : List (String × Table)) : Engine :=
  fun q tables =>
    match parseCreateOrReplace q with
    | some (t, p) =>
        match lookupTable csvFS p with
        | some tbl => .ok ([], replaceTable tables t tbl)
        | none => .error .loadError
    | none => .error .queryError

/-- Shallow embedding of `DuckDBResource.read_csv_to_table`
(`src/dagster_example/resources.py`, lines 55-63):

`with self.get_connection() as conn: conn.execute(f"...CREATE OR REPLACE
TABLE {table_name} AS SELECT * FROM read_csv_auto('{csv_path}')...");
conn.commit()`

On engine failure the commit is never reached and the error propagates
through the scope's cleanup. -/
def read_csv_to_table (database_path : String) (f : Faults)
    (csvFS : List (String × Table)) (csv_path table_name : String)
    (tables : Tables) : GCResult Unit :=
  get_connection database_path f
    (fun conn =>
      match duckdbEngine csvFS (corSQL table_name csv_path) conn.tables with
      | .ok (_, t) => (.ok (), ⟨t⟩, [.exec (corSQL table_name csv_path), .commit])
      | .error e => (.error e, conn, [.exec (corSQL table_name csv_path)]))
    tables

/-! Helper lemmas shared by the claim theorems. -/

theorem step_toEvent (s : LockState) (be : BodyEvent) : step s (toEvent be) = s := by
  cases be <;> rfl

theorem foldl_step_map_toEvent (s : LockState) (bevs : List BodyEvent) :
    List.foldl step s (List.map toEvent bevs) = s := by
  induction bevs generalizing s with
  | nil => rfl
  | cons be tl ih => simp only [List.map_cons, List.foldl_cons, step_toEvent, ih]

theorem safeTrace_map_toEvent (s : LockState) (h : s.lockHeld = true)
    (bevs : List BodyEvent) (rest : List Event) :
    safeTrace s (List.map toEvent bevs ++ rest) = safeTrace s rest := by
  induction bevs with
  | nil => rfl
  | cons be tl ih =>
      simp only [List.map_cons, List.cons_append, safeTrace, step_toEvent, h,
        Bool.or_true, Bool.true_and]
      exact ih

theorem safeTrace_trueLock (s : LockState) (h : s.lockHeld = true)
    (bevs : List BodyEvent) :
    safeTrace s (List.map toEvent bevs ++
      [Event.connClose, Event.flockUn, Event.lockClose]) = true := by
  rw [safeTrace_map_toEvent s h]
  simp [safeTrace, step]

theorem safeTrace_mainTrace (s : LockState) (h : s.connOpen = false)
    (p lp : String) (bevs : List BodyEvent) :
    safeTrace s ([Event.mkdirParents p, Event.openLockOk lp, Event.flockExOk,
      Event.connectOk] ++ List.map toEvent bevs ++
      [Event.connClose, Event.flockUn, Event.lockClose]) = true := by
  simp only [List.cons_append, List.nil_append, List.append_eq, safeTrace, step]
  rw [safeTrace_trueLock _ rfl bevs]
  simp [h]

/-- Claim C1.  On every exit path of `get_connection` — the body returned
normally, the body raised, `duckdb.connect` raised, `flock` raised, or even
the initial `open` of the lock file raised — the advisory lock is free
afterwards (so a second caller's blocking acquire would succeed), provided
it was free of other holders when this caller started. -/
theorem get_connection_releases_lock {α : Type} (database_path : String)
    (f : Faults) (body : Body α) (tables : Tables) (s : LockState)
    (h : s.lockHeld = false) :
    (replay s (get_connection database_path f body tables).trace).lockHeld = false := by
  rcases f with ⟨lof, ff, cf⟩
  cases lof with
  | true => simpa [get_connection, replay, step] using h
  | false =>
    cases ff with
    | true => simp [get_connection, replay, step]
    | false =>
      cases cf with
      | true => simp [get_connection, replay, step]
      | false =>
        rcases hb : body ⟨tables⟩ with ⟨r, conn, bevs⟩
        simp [get_connection, hb, replay, step, List.foldl_append,
          foldl_step_map_toEvent]

/-- Witness for C1: a concrete run with a body that raises, from a
concrete world with the lock free; the lock is free again afterwards. -/
theorem get_connection_releases_lock_witness :
    (⟨[], false, "", false, 0, false⟩ : LockState).lockHeld = false ∧
    (replay ⟨[], false, "", false, 0, false⟩
      (get_connection "data/warehouse/analytics.duckdb" noFaults
        (fun c => ((.error .callerError : Except Err Unit), c, [])) []).trace).lockHeld
      = false :=
  ⟨rfl, get_connection_releases_lock "data/warehouse/analytics.duckdb" noFaults
    (fun c => ((.error .callerError : Except Err Unit), c, [])) []
    ⟨[], false, "", false, 0, false⟩ rfl⟩

/-- Claim C2.  On scope exit of `get_connection`, normal or raising, the
connection is closed strictly before the lock is released: after every
single event of the trace the connection is never open while the lock is
not held (`safeTrace`), and whenever a connection was opened at all the
trace literally ends with `connClose` followed by `flockUn`, so the close
precedes the release. -/
theorem get_connection_close_before_release {α : Type} (database_path : String)
    (f : Faults) (body : Body α) (tables : Tables) (s : LockState)
    (h : s.connOpen = false) :
    safeTrace s (get_connection database_path f body tables).trace = true ∧
    (Event.connectOk ∈ (get_connection database_path f body tables).trace →
      ∃ bevs : List BodyEvent,
        (get_connection database_path f body tables).trace =
          [Event.mkdirParents (parentPath database_path),
           Event.openLockOk (lockFilePath database_path), Event.flockExOk,
           Event.connectOk] ++ List.map toEvent bevs ++
          [Event.connClose, Event.flockUn, Event.lockClose]) := by
  rcases f with ⟨lof, ff, cf⟩
  cases lof with
  | true =>
      refine ⟨by simp [get_connection, safeTrace, step, h], ?_⟩
      intro hmem
      simp [get_connection] at hmem
  | false =>
    cases ff with
    | true =>
        refine ⟨by simp [get_connection, safeTrace, step, h], ?_⟩
        intro hmem
        simp [get_connection] at hmem
    | false =>
      cases cf with
      | true =>
          refine ⟨by simp [get_connection, safeTrace, step, h], ?_⟩
          intro hmem
          simp [get_connection] at hmem
      | false =>
          rcases hb : body ⟨tables⟩ with ⟨r, conn, bevs⟩
          constructor
          · simp only [get_connection, hb]
            exact safeTrace_mainTrace s h _ _ bevs
          · intro _
            exact ⟨bevs, by simp [get_connection, hb]⟩

/-- Witness for C2: a concrete fault-free run whose body runs one
statement; the trace is safe and has the close-then-release tail. -/
theorem get_connection_close_before_release_witness :
    (⟨[], false, "", false, 0, false⟩ : LockState).connOpen = false ∧
    safeTrace ⟨[], false, "", false, 0, false⟩
      (get_connection "data/warehouse/analytics.duckdb" noFaults
        (fun c => ((.ok () : Except Err Unit), c, [BodyEvent.exec "SELECT 1"])) []).trace
      = true ∧
    (∃ bevs : List BodyEvent,
        (get_connection "data/warehouse/analytics.duckdb" noFaults
          (fun c => ((.ok () : Except Err Unit), c, [BodyEvent.exec "SELECT 1"])) []).trace =
          [Event.mkdirParents (parentPath "data/warehouse/analytics.duckdb"),
           Event.openLockOk (lockFilePath "data/warehouse/analytics.duckdb"),
           Event.flockExOk, Event.connectOk] ++ List.map toEvent bevs ++
          [Event.connClose, Event.flockUn, Event.lockClose]) :=
  ⟨rfl,
    (get_connection_close_before_release "data/warehouse/analytics.duckdb"
      noFaults (fun c => ((.ok () : Except Err Unit), c, [BodyEvent.exec "SELECT 1"])) []
      ⟨[], false, "", false, 0, false⟩ rfl).1,
    (get_connection_close_before_release "data/warehouse/analytics.duckdb"
      noFaults (fun c => ((.ok () : Except Err Unit), c, [BodyEvent.exec "SELECT 1"])) []
      ⟨[], false, "", false, 0, false⟩ rfl).2 (by decide)⟩

theorem lookupTable_replaceTable (ts : Tables) (name : String) (t : Table) :
    lookupTable (replaceTable ts name t) name = some t := by
  induction ts with
  | nil => simp [replaceTable, lookupTable]
  | cons hd tl ih =>
      rcases hd with ⟨n, t₀⟩
      by_cases hn : n = name
      · simp [replaceTable, lookupTable, hn]
      · simp [replaceTable, lookupTable, hn, ih]

/-- Claim C3.  Loading the same parsable delimited file into the same
validly-named table twice leaves the table with exactly the same content
(hence the same row count and schema) as loading it once: the second load
replaces the table rather than appending.  Both loads succeed. -/
theorem read_csv_to_table_idempotent (database_path : String)
    (csvFS : List (String × Table)) (csv_path table_name : String)
    (tbl : Table) (tables : Tables)
    (hname : parseCreateOrReplace (corSQL table_name csv_path) =
      some (table_name, csv_path))
    (hfile : lookupTable csvFS csv_path = some tbl) :
    (read_csv_to_table database_path noFaults csvFS csv_path table_name
      tables).result = .ok () ∧
    lookupTable (read_csv_to_table database_path noFaults csvFS csv_path
      table_name tables).tables table_name = some tbl ∧
    (read_csv_to_table database_path noFaults csvFS csv_path table_name
      (read_csv_to_table database_path noFaults csvFS csv_path table_name
        tables).tables).result = .ok () ∧
    lookupTable (read_csv_to_table database_path noFaults csvFS csv_path
      table_name
      (read_csv_to_table database_path noFaults csvFS csv_path table_name
        tables).tables).tables table_name = some tbl := by
  simp [read_csv_to_table, get_connection, noFaults, duckdbEngine, hname,
    hfile, lookupTable_replaceTable]

/-- Witness for C3: loading a concrete two-row file into table `t` twice
from an empty catalog; both loads succeed and both catalogs bind `t` to
the parsed table. -/
theorem read_csv_to_table_idempotent_witness :
    parseCreateOrReplace (corSQL "t" "data/raw/f.csv") =
      some ("t", "data/raw/f.csv") ∧
    lookupTable [("data/raw/f.csv", ⟨["a"], [["1"], ["2"]]⟩)] "data/raw/f.csv" =
      some ⟨["a"], [["1"], ["2"]]⟩ ∧
    ((read_csv_to_table "db" noFaults [("data/raw/f.csv", ⟨["a"], [["1"], ["2"]]⟩)]
        "data/raw/f.csv" "t" []).result = .ok () ∧
      lookupTable (read_csv_to_table "db" noFaults
        [("data/raw/f.csv", ⟨["a"], [["1"], ["2"]]⟩)] "data/raw/f.csv" "t"
        []).tables "t" = some ⟨["a"], [["1"], ["2"]]⟩ ∧
      (read_csv_to_table "db" noFaults [("data/raw/f.csv", ⟨["a"], [["1"], ["2"]]⟩)]
        "data/raw/f.csv" "t"
        (read_csv_to_table "db" noFaults
          [("data/raw/f.csv", ⟨["a"], [["1"], ["2"]]⟩)] "data/raw/f.csv" "t"
          []).tables).result = .ok () ∧
      lookupTable (read_csv_to_table "db" noFaults
        [("data/raw/f.csv", ⟨["a"], [["1"], ["2"]]⟩)] "data/raw/f.csv" "t"
        (read_csv_to_table "db" noFaults
          [("data/raw/f.csv", ⟨["a"], [["1"], ["2"]]⟩)] "data/raw/f.csv" "t"
          []).tables).tables "t" = some ⟨["a"], [["1"], ["2"]]⟩) :=
  ⟨by decide, rfl,
    read_csv_to_table_idempotent "db" [("data/raw/f.csv", ⟨["a"], [["1"], ["2"]]⟩)]
      "data/raw/f.csv" "t" ⟨["a"], [["1"], ["2"]]⟩ [] (by decide) rfl⟩

/-- Claim C4.  Calling the bulk load with a file path that does not exist
fails with the load error and leaves the catalog exactly as it was: the
target table binding afterwards is whatever it was before (absent if it
was absent, unchanged if present). -/
theorem read_csv_to_table_missing_file (database_path : String)
    (csvFS : List (String × Table)) (csv_path table_name : String)
    (tables : Tables)
    (hname : parseCreateOrReplace (corSQL table_name csv_path) =
      some (table_name, csv_path))
    (hfile : lookupTable csvFS csv_path = none) :
    (read_csv_to_table database_path noFaults csvFS csv_path table_name
      tables).result = .error .loadError ∧
    (read_csv_to_table database_path noFaults csvFS csv_path table_name
      tables).tables = tables ∧
    lookupTable (read_csv_to_table database_path noFaults csvFS csv_path
      table_name tables).tables table_name = lookupTable tables table_name := by
  simp [read_csv_to_table, get_connection, noFaults, duckdbEngine, hname, hfile]

/-- Witness for C4: loading `/nonexistent.csv` into `t` on an empty file
system fails with the load error and leaves no `t` table behind. -/
theorem read_csv_to_table_missing_file_witness :
    parseCreateOrReplace (corSQL "t" "/nonexistent.csv") =
      some ("t", "/nonexistent.csv") ∧
    lookupTable ([] : List (String × Table)) "/nonexistent.csv" = none ∧
    ((read_csv_to_table "db" noFaults [] "/nonexistent.csv" "t" []).result =
        .error .loadError ∧
      (read_csv_to_table "db" noFaults [] "/nonexistent.csv" "t" []).tables = [] ∧
      lookupTable (read_csv_to_table "db" noFaults [] "/nonexistent.csv" "t"
        []).tables "t" = lookupTable [] "t") :=
  ⟨by decide, rfl,
    read_csv_to_table_missing_file "db" [] "/nonexistent.csv" "t" [] (by decide) rfl⟩

/-- Claim C5.  For every engine and every query string, a fault-free
`execute_query` opens a scoped connection, hands the engine exactly the
input string (the `connExec` event carries it verbatim, with no
parameterization or escaping), returns precisely the ordered row sequence
the engine fetched, and its trace closes the connection and releases the
lock and descriptor after the query and before returning. -/
theorem execute_query_verbatim (database_path : String) (engine : Engine)
    (query : String) (tables t : Tables) (rows : List Row)
    (heng : engine query tables = .ok (rows, t)) :
    execute_query database_path noFaults engine query tables =
      ⟨.ok rows, t,
       [Event.mkdirParents (parentPath database_path),
        Event.openLockOk (lockFilePath database_path), Event.flockExOk,
        Event.connectOk, Event.connExec query, Event.connClose,
        Event.flockUn, Event.lockClose]⟩ := by
  simp [execute_query, get_connection, noFaults, heng, toEvent]

/-- Witness for C5: a concrete engine evaluating `SELECT 1+1` to one row
holding `2`; `execute_query` returns that row and produces exactly the
expected trace. -/
theorem execute_query_verbatim_witness :
    (fun (_ : String) (ts : Tables) =>
        (.ok ([["2"]], ts) : Except Err (List Row × Tables))) "SELECT 1+1"
      ([] : Tables) = .ok ([["2"]], []) ∧
    execute_query "data/warehouse/analytics.duckdb" noFaults
      (fun _ ts => .ok ([["2"]], ts)) "SELECT 1+1" [] =
      ⟨.ok [["2"]], [],
       [Event.mkdirParents (parentPath "data/warehouse/analytics.duckdb"),
        Event.openLockOk (lockFilePath "data/warehouse/analytics.duckdb"),
        Event.flockExOk, Event.connectOk, Event.connExec "SELECT 1+1",
        Event.connClose, Event.flockUn, Event.lockClose]⟩ :=
  ⟨rfl, execute_query_verbatim "data/warehouse/analytics.duckdb"
    (fun _ ts => .ok ([["2"]], ts)) "SELECT 1+1" [] [] [["2"]] rfl⟩

/-- Claim C6.  When the lock file cannot be created or opened, the call
fails with the resource-unavailable error immediately: the trace shows the
single failed open attempt and nothing after it — no retry, no lock
acquisition, no connection. -/
theorem get_connection_lock_open_fails {α : Type} (database_path : String)
    (ff cf : Bool) (body : Body α) (tables : Tables) :
    get_connection database_path ⟨true, ff, cf⟩ body tables =
      ⟨.error .resourceUnavailable, tables,
       [Event.mkdirParents (parentPath database_path),
        Event.openLockFail (lockFilePath database_path)]⟩ := rfl

/-- Counterexample for C7.  The source computes
`str(Path(self.database_path)) + ".lock"`, and `pathlib` collapses the
spurious double slash, so for the database path `"data//analytics.duckdb"`
the lock path is `"data/analytics.duckdb.lock"`, not the database path
with `".lock"` appended. -/
theorem lockFilePath_counterexample :
    lockFilePath "data//analytics.duckdb" ≠ "data//analytics.duckdb" ++ ".lock" := by
  decide

/-- Claim C7 as amended.  For every database path already in `pathlib`
normal form (collapsing spurious slashes and single dots changes nothing —
true of every ordinary path, including the default
`data/warehouse/analytics.duckdb`), the lock file path used by the scoped
connection operation is the database path with the fixed suffix `".lock"`
appended, so the lock file sits alongside the database file. -/
theorem lockFilePath_of_normalized (p : String) (h : normPosixPath p = p) :
    lockFilePath p = p ++ ".lock" := by
  unfold lockFilePath
  rw [h]

/-- Witness for the amended C7 at the default database path. -/
theorem lockFilePath_of_normalized_witness :
    normPosixPath "data/warehouse/analytics.duckdb" =
      "data/warehouse/analytics.duckdb" ∧
    lockFilePath "data/warehouse/analytics.duckdb" =
      "data/warehouse/analytics.duckdb" ++ ".lock" :=
  ⟨by decide, lockFilePath_of_normalized "data/warehouse/analytics.duckdb" (by decide)⟩

theorem mem_foldl_insertDir_of_mem (l : List String) (dirs : List String)
    (x : String) (hx : x ∈ dirs) : x ∈ l.foldl insertDir dirs := by
  induction l generalizing dirs with
  | nil => exact hx
  | cons a tl ih =>
      refine ih (insertDir dirs a) ?_
      unfold insertDir
      by_cases ha : a ∈ dirs
      · simpa [ha] using hx
      · simp [ha, hx]

theorem mem_foldl_insertDir (l : List String) (dirs : List String)
    (x : String) (hx : x ∈ l) : x ∈ l.foldl insertDir dirs := by
  induction l generalizing dirs with
  | nil => cases hx
  | cons a tl ih =>
      rcases List.mem_cons.mp hx with h | h
      · subst h
        refine mem_foldl_insertDir_of_mem tl (insertDir dirs x) x ?_
        unfold insertDir
        by_cases hx' : x ∈ dirs <;> simp [hx']
      · exact ih (insertDir dirs a) h

theorem foldl_insertDir_of_all_mem (l : List String) (dirs : List String)
    (h : ∀ x ∈ l, x ∈ dirs) : l.foldl insertDir dirs = dirs := by
  induction l with
  | nil => rfl
  | cons a tl ih =>
      have ha : insertDir dirs a = dirs := by
        unfold insertDir
        simp [h a (List.mem_cons_self a tl)]
      simp only [List.foldl_cons, ha]
      exact ih (fun x hx => h x (List.mem_cons_of_mem a hx))

theorem replay_dirs {α : Type} (database_path : String) (f : Faults)
    (body : Body α) (tables : Tables) (s : LockState) :
    (replay s (get_connection database_path f body tables).trace).dirs =
      mkdirParentsFS s.dirs (parentPath database_path) := by
  rcases f with ⟨lof, ff, cf⟩
  cases lof with
  | true => simp [get_connection, replay, step]
  | false =>
    cases ff with
    | true => simp [get_connection, replay, step]
    | false =>
      cases cf with
      | true => simp [get_connection, replay, step]
      | false =>
        rcases hb : body ⟨tables⟩ with ⟨r, conn, bevs⟩
        simp [get_connection, hb, replay, step, List.foldl_append,
          foldl_step_map_toEvent]

/-- Claim C8.  The scoped connection first ensures the parent directory of
the database path exists: after any call (whatever the faults or the
body), every directory on the parent's chain exists; when the chain
already existed the directory set is unchanged (the `mkdir` is idempotent
and raises nothing); and a fault-free scoped call against a path whose
parent did not exist still succeeds with the body's result — success never
depends on the directories present beforehand. -/
theorem get_connection_parent_dirs {α : Type} (database_path : String)
    (f : Faults) (body : Body α) (tables : Tables) (s : LockState) :
    (∀ d ∈ dirChain (parentPath database_path),
       d ∈ (replay s (get_connection database_path f body tables).trace).dirs) ∧
    ((∀ d ∈ dirChain (parentPath database_path), d ∈ s.dirs) →
       (replay s (get_connection database_path f body tables).trace).dirs =
         s.dirs) ∧
    (∀ x : α, (body ⟨tables⟩).1 = Except.ok x →
       (get_connection database_path noFaults body tables).result =
         Except.ok x) := by
  refine ⟨?_, ?_, ?_⟩
  · intro d hd
    rw [replay_dirs]
    exact mem_foldl_insertDir _ s.dirs d hd
  · intro hall
    rw [replay_dirs]
    exact foldl_insertDir_of_all_mem _ s.dirs hall
  · intro x hx
    rcases hb : body ⟨tables⟩ with ⟨r, conn, bevs⟩
    rw [hb] at hx
    simp only at hx
    simp [get_connection, noFaults, hb, hx]

/-- Witness for C8: starting with no directories at all, both directories
of the default path's parent chain exist after the call; starting with
exactly that chain already present, the directory set is unchanged; and
the call (on the directory-less world) returns the body's value. -/
theorem get_connection_parent_dirs_witness :
    (∀ d ∈ dirChain (parentPath "data/warehouse/analytics.duckdb"),
       d ∈ (replay ⟨[], false, "", false, 0, false⟩
         (get_connection "data/warehouse/analytics.duckdb" noFaults
           (fun c => ((.ok () : Except Err Unit), c, [])) []).trace).dirs) ∧
    (replay ⟨["data", "data/warehouse"], false, "", false, 0, false⟩
       (get_connection "data/warehouse/analytics.duckdb" noFaults
         (fun c => ((.ok () : Except Err Unit), c, [])) []).trace).dirs =
      (⟨["data", "data/warehouse"], false, "", false, 0, false⟩ : LockState).dirs ∧
    (get_connection "data/warehouse/analytics.duckdb" noFaults
       (fun c => ((.ok () : Except Err Unit), c, [])) []).result =
      Except.ok () :=
  ⟨(get_connection_parent_dirs "data/warehouse/analytics.duckdb" noFaults
      (fun c => ((.ok () : Except Err Unit), c, [])) []
      ⟨[], false, "", false, 0, false⟩).1,
   (get_connection_parent_dirs "data/warehouse/analytics.duckdb" noFaults
      (fun c => ((.ok () : Except Err Unit), c, [])) []
      ⟨["data", "data/warehouse"], false, "", false, 0, false⟩).2.1 (by decide),
   (get_connection_parent_dirs "data/warehouse/analytics.duckdb" noFaults
      (fun c => ((.ok () : Except Err Unit), c, [])) []
      ⟨[], false, "", false, 0, false⟩).2.2 () rfl⟩

/-- Claim C9.  No call to `get_connection` leaks an open lock-file
descriptor: the number of open descriptors afterwards equals the number
before on every exit path, and on every path where the open itself
succeeded the trace ends by unlocking and then closing that descriptor —
also when `flock` raised and when `duckdb.connect` raised. -/
theorem get_connection_no_fd_leak {α : Type} (database_path : String)
    (f : Faults) (body : Body α) (tables : Tables) (s : LockState) :
    (replay s (get_connection database_path f body tables).trace).openLockFds =
      s.openLockFds ∧
    (f.lockOpenFails = false →
      ∃ pre, (get_connection database_path f body tables).trace =
        pre ++ [Event.flockUn, Event.lockClose]) := by
  rcases f with ⟨lof, ff, cf⟩
  cases lof with
  | true =>
      refine ⟨by simp [get_connection, replay, step], ?_⟩
      intro hfalse
      cases hfalse
  | false =>
    cases ff with
    | true =>
        refine ⟨by simp [get_connection, replay, step], ?_⟩
        intro _
        exact ⟨[Event.mkdirParents (parentPath database_path),
          Event.openLockOk (lockFilePath database_path), Event.flockExFail], rfl⟩
    | false =>
      cases cf with
      | true =>
          refine ⟨by simp [get_connection, replay, step], ?_⟩
          intro _
          exact ⟨[Event.mkdirParents (parentPath database_path),
            Event.openLockOk (lockFilePath database_path), Event.flockExOk,
            Event.connectFail], rfl⟩
      | false =>
          rcases hb : body ⟨tables⟩ with ⟨r, conn, bevs⟩
          constructor
          · simp [get_connection, hb, replay, step, List.foldl_append,
              foldl_step_map_toEvent]
          · intro _
            refine ⟨[Event.mkdirParents (parentPath database_path),
              Event.openLockOk (lockFilePath database_path), Event.flockExOk,
              Event.connectOk] ++ List.map toEvent bevs ++ [Event.connClose], ?_⟩
            simp [get_connection, hb]

/-- Witness for C9: a concrete run whose connect step fails; the
descriptor count is back to its starting value and the trace ends with
the unlock-then-close pair. -/
theorem get_connection_no_fd_leak_witness :
    (replay ⟨[], false, "", false, 0, false⟩
      (get_connection "data/warehouse/analytics.duckdb" ⟨false, false, true⟩
        (fun c => ((.ok () : Except Err Unit), c, [])) []).trace).openLockFds =
      (⟨[], false, "", false, 0, false⟩ : LockState).openLockFds ∧
    (∃ pre, (get_connection "data/warehouse/analytics.duckdb"
        ⟨false, false, true⟩
        (fun c => ((.ok () : Except Err Unit), c, [])) []).trace =
          pre ++ [Event.flockUn, Event.lockClose]) :=
  ⟨(get_connection_no_fd_leak "data/warehouse/analytics.duckdb"
      ⟨false, false, true⟩ (fun c => ((.ok () : Except Err Unit), c, [])) []
      ⟨[], false, "", false, 0, false⟩).1,
   (get_connection_no_fd_leak "data/warehouse/analytics.duckdb"
      ⟨false, false, true⟩ (fun c => ((.ok () : Except Err Unit), c, [])) []
      ⟨[], false, "", false, 0, false⟩).2 rfl⟩

/-- Claim C10.  The lock file is opened in write mode on each acquisition:
on every path where the open succeeded the file exists afterwards with
empty content (created if absent, truncated otherwise), and no path of
this layer ever deletes an existing lock file. -/
theorem get_connection_lock_file_persists {α : Type} (database_path : String)
    (f : Faults) (body : Body α) (tables : Tables) (s : LockState) :
    (f.lockOpenFails = false →
       (replay s (get_connection database_path f body tables).trace).lockFileExists
           = true ∧
       (replay s (get_connection database_path f body tables).trace).lockFileContent
           = "") ∧
    (s.lockFileExists = true →
       (replay s (get_connection database_path f body tables).trace).lockFileExists
           = true) := by
  rcases f with ⟨lof, ff, cf⟩
  cases lof with
  | true =>
      refine ⟨fun hfalse => ?_, fun hex => ?_⟩
      · simp at hfalse
      · simpa [get_connection, replay, step] using hex
  | false =>
    cases ff with
    | true =>
        exact ⟨fun _ => by simp [get_connection, replay, step],
          fun _ => by simp [get_connection, replay, step]⟩
    | false =>
      cases cf with
      | true =>
          exact ⟨fun _ => by simp [get_connection, replay, step],
            fun _ => by simp [get_connection, replay, step]⟩
      | false =>
          rcases hb : body ⟨tables⟩ with ⟨r, conn, bevs⟩
          exact ⟨fun _ => by
              simp [get_connection, hb, replay, step, List.foldl_append,
                foldl_step_map_toEvent],
            fun _ => by
              simp [get_connection, hb, replay, step, List.foldl_append,
                foldl_step_map_toEvent]⟩

/-- Witness for C10: a fault-free run starting from a world where the lock
file already exists with stale content; afterwards it still exists and is
empty. -/
theorem get_connection_lock_file_persists_witness :
    (replay ⟨[], true, "stale", false, 0, false⟩
       (get_connection "data/warehouse/analytics.duckdb" noFaults
         (fun c => ((.ok () : Except Err Unit), c, [])) []).trace).lockFileExists
         = true ∧
    (replay ⟨[], true, "stale", false, 0, false⟩
       (get_connection "data/warehouse/analytics.duckdb" noFaults
         (fun c => ((.ok () : Except Err Unit), c, [])) []).trace).lockFileContent
         = "" :=
  (get_connection_lock_file_persists "data/warehouse/analytics.duckdb" noFaults
    (fun c => ((.ok () : Except Err Unit), c, [])) []
    ⟨[], true, "stale", false, 0, false⟩).1 rfl
